import Mathlib

/-!
Verification of the LOVB fantasy-volleyball lineup allocator.

The development shallowly embeds the client-side lineup state container
(`TeamContext`): the six-slot lineup record, `calculateCredits`,
`setPlayerToPosition`, `saveLineup`, `loadLineup`, together with the
team-builder screen's save gate (`canSave` / `handleSave`) and the
player-list screen's selection-time budget preview (`handleSelectPlayer`).
Network responses are modelled as explicit inductive values and the
async operations become pure functions from the response to the outcome
(new state, emitted events, thrown error).
-/

namespace LOVB

/-- Per-set statistics of a player, as fetched from the roster endpoint.
The per-set averages are fractional numbers; they are modelled as
rationals and never inspected by the allocator. -/
structure PlayerStats where
  «matches» : Nat
  sets : Nat
  kills_per_set : Rat
  digs_per_set : Rat
  blocks_per_set : Rat
  aces_per_set : Rat
  deriving DecidableEq, Repr

/-- A roster player. Immutable from the client's perspective. -/
structure Player where
  id : String
  name : String
  jerseyNumber : Nat
  position : String
  teamName : String
  creditCost : Int
  bio : String
  imageBase64 : String
  stats : PlayerStats
  deriving DecidableEq, Repr

/-- The six fixed position keys of a lineup (the slot-valued keys of the
`Lineup` record; the two numeric derived fields are not assignable). -/
inductive Position where
  | setter
  | outsideHitter
  | oppositeHitter
  | middleBlocker
  | libero
  | defensiveSpecialist
  deriving DecidableEq, Repr

/-- The lineup state: six optional slots plus the two derived fields
stored alongside them, exactly as in the context's `Lineup` interface. -/
structure Lineup where
  setter : Option Player
  outsideHitter : Option Player
  oppositeHitter : Option Player
  middleBlocker : Option Player
  libero : Option Player
  defensiveSpecialist : Option Player
  creditsUsed : Int
  remaining : Int
  deriving DecidableEq, Repr

/-- The initial lineup state installed by `useState` in `TeamProvider`. -/
def initialLineup : Lineup :=
  { setter := none
    outsideHitter := none
    oppositeHitter := none
    middleBlocker := none
    libero := none
    defensiveSpecialist := none
    creditsUsed := 0
    remaining := 100 }

/-- Read the slot stored under a position key (`lineup[pos]`). -/
def Lineup.get (l : Lineup) : Position → Option Player
  | .setter => l.setter
  | .outsideHitter => l.outsideHitter
  | .oppositeHitter => l.oppositeHitter
  | .middleBlocker => l.middleBlocker
  | .libero => l.libero
  | .defensiveSpecialist => l.defensiveSpecialist

/-- Replace the slot stored under a position key, leaving the rest of the
record untouched (`\x7b ...lineup, [position]: player \x7d`). -/
def Lineup.set (l : Lineup) (pos : Position) (pl : Option Player) : Lineup :=
  match pos with
  | .setter => { l with setter := pl }
  | .outsideHitter => { l with outsideHitter := pl }
  | .oppositeHitter => { l with oppositeHitter := pl }
  | .middleBlocker => { l with middleBlocker := pl }
  | .libero => { l with libero := pl }
  | .defensiveSpecialist => { l with defensiveSpecialist := pl }

/-- The `positions` array iterated by `calculateCredits`. -/
def positionsList : List Position :=
  [.setter, .outsideHitter, .oppositeHitter, .middleBlocker, .libero, .defensiveSpecialist]

/-- Credit contribution of one slot: the occupant's `creditCost`, or zero
for an absent occupant (the `player && 'creditCost' in player` guard). -/
def slotCost : Option Player → Int
  | some p => p.creditCost
  | none => 0

/-- The pair of derived fields returned by `calculateCredits`. -/
structure CreditInfo where
  creditsUsed : Int
  remaining : Int
  deriving DecidableEq, Repr

/-- `calculateCredits`: fold over the six position keys accumulating the
occupants' credit costs, then return the total and `100 - total`. -/
def calculateCredits (newLineup : Lineup) : CreditInfo :=
  let total := positionsList.foldl (fun acc pos => acc + slotCost (newLineup.get pos)) 0
  { creditsUsed := total, remaining := 100 - total }

/-- `setPlayerToPosition`: overwrite the slot, recompute the derived
fields from the updated six slots, and install both in one state update. -/
def setPlayerToPosition (lineup : Lineup) (position : Position) (player : Option Player) : Lineup :=
  let newLineup := lineup.set position player
  let credits := calculateCredits newLineup
  { newLineup with creditsUsed := credits.creditsUsed, remaining := credits.remaining }

/-- Specification-side sum of `creditCost` over the six slots, written as
a plain sum so theorems do not merely restate `calculateCredits`. -/
def sumCost (l : Lineup) : Int :=
  slotCost l.setter + slotCost l.outsideHitter + slotCost l.oppositeHitter +
    slotCost l.middleBlocker + slotCost l.libero + slotCost l.defensiveSpecialist

/-- The signed-in identity: only the bearer token matters here. -/
structure User where
  token : String
  deriving DecidableEq, Repr

/-- JavaScript `v || dflt` on an optional number: absent, or the falsy
number `0`, both fall back to the default. -/
def jsIntOr (v : Option Int) (dflt : Int) : Int :=
  match v with
  | none => dflt
  | some n => if n = 0 then dflt else n

/-- JavaScript `s || dflt` on an optional string: absent, or the falsy
empty string, both fall back to the default. -/
def jsStrOr (v : Option String) (dflt : String) : String :=
  match v with
  | none => dflt
  | some s => if s = "" then dflt else s

/-- Outcome of the POST to `/api/lineup/save`, as observed by the client:
a success response, a non-ok response carrying an optional `detail`
message in its error payload, or a thrown network error. -/
inductive SaveResponse where
  | ok
  | notOk (detail : Option String)
  | networkError (msg : String)
  deriving DecidableEq, Repr

/-- Observable steps taken by `saveLineup`: mutations of the `saving`
flag and the issuing of the HTTP request, in program order. -/
inductive SaveEvent where
  | setSaving (b : Bool)
  | httpPost
  deriving DecidableEq, Repr

/-- What a call to `saveLineup` produces: the lineup afterwards (the
function never writes the lineup), the ordered trace of observable
events, and the promise result (thrown error message or unit). -/
structure SaveOutcome where
  lineup : Lineup
  events : List SaveEvent
  result : Except String Unit
  deriving Repr

/-- `saveLineup`: a no-op without a signed-in user; otherwise set
`saving` to true, issue the request, throw on a non-ok response with
the payload's `detail` (or the generic fallback) or rethrow a network
error, and reset `saving` to false in the `finally` block on every path. -/
def saveLineup (user : Option User) (l : Lineup) (resp : SaveResponse) : SaveOutcome :=
  match user with
  | none => { lineup := l, events := [], result := .ok () }
  | some _ =>
    match resp with
    | .ok =>
      { lineup := l
        events := [.setSaving true, .httpPost, .setSaving false]
        result := .ok () }
    | .notOk detail =>
      { lineup := l
        events := [.setSaving true, .httpPost, .setSaving false]
        result := .error (jsStrOr detail "Failed to save lineup") }
    | .networkError msg =>
      { lineup := l
        events := [.setSaving true, .httpPost, .setSaving false]
        result := .error msg }

/-- Body of a successful GET `/api/lineup` response: six resolved slot
assignments plus the two persisted aggregate numbers, any of which the
server may omit. -/
structure LineupPayload where
  setter : Option Player
  outsideHitter : Option Player
  oppositeHitter : Option Player
  middleBlocker : Option Player
  libero : Option Player
  defensiveSpecialist : Option Player
  creditsUsed : Option Int
  remaining : Option Int
  deriving DecidableEq, Repr

/-- Outcome of the GET to `/api/lineup`: a success response with a
payload, a non-ok response, or a thrown network error. -/
inductive LoadResponse where
  | ok (data : LineupPayload)
  | notOk
  | networkError (msg : String)
  deriving DecidableEq, Repr

/-- What a call to `loadLineup` produces: the lineup afterwards, the
`console.error` log lines emitted, and the error surfaced to the user
(always none: the function neither throws nor alerts). -/
structure LoadOutcome where
  lineup : Lineup
  loggedErrors : List String
  surfacedError : Option String
  deriving DecidableEq, Repr

/-- `loadLineup`: a no-op without a signed-in user; on an ok response
replace the whole lineup with the payload slots and the payload's
aggregates under falsy fallback (`data.creditsUsed || 0`,
`data.remaining || 100`); silently ignore a non-ok response; log and
swallow a thrown network error. -/
def loadLineup (user : Option User) (l : Lineup) (resp : LoadResponse) : LoadOutcome :=
  match user with
  | none => { lineup := l, loggedErrors := [], surfacedError := none }
  | some _ =>
    match resp with
    | .ok data =>
      { lineup :=
          { setter := data.setter
            outsideHitter := data.outsideHitter
            oppositeHitter := data.oppositeHitter
            middleBlocker := data.middleBlocker
            libero := data.libero
            defensiveSpecialist := data.defensiveSpecialist
            creditsUsed := jsIntOr data.creditsUsed 0
            remaining := jsIntOr data.remaining 100 }
        loggedErrors := []
        surfacedError := none }
    | .notOk => { lineup := l, loggedErrors := [], surfacedError := none }
    | .networkError msg =>
      { lineup := l
        loggedErrors := ["Failed to load lineup: " ++ msg]
        surfacedError := none }

/-- An `Alert.alert` call: title and message. -/
structure AlertMsg where
  title : String
  message : String
  deriving DecidableEq, Repr

/-- Team-builder screen, `canSave`: every slot occupied and the stored
`remaining` non-negative. -/
def allFilled (l : Lineup) : Bool :=
  positionsList.all fun pos => (l.get pos).isSome

/-- Team-builder screen, `canSave` as written: `allFilled && withinBudget`. -/
def canSave (l : Lineup) : Bool :=
  allFilled l && decide (0 ≤ l.remaining)

/-- The over-budget rejection alert shown by `handleSave`. -/
def overBudgetAlert (remaining : Int) : AlertMsg :=
  { title := "Budget Exceeded"
    message := "You\x27re over budget by " ++ toString remaining.natAbs ++ " credits!" }

/-- The incomplete-lineup rejection alert shown by `handleSave`. -/
def incompleteAlert : AlertMsg :=
  { title := "Incomplete Lineup"
    message := "Please fill all 6 positions before saving." }

/-- What the team-builder's `handleSave` produces: whether the network
request was issued, and the alert shown to the user. -/
structure SaveFlow where
  networkAttempted : Bool
  alert : AlertMsg
  deriving DecidableEq, Repr

/-- Team-builder screen, `handleSave`: reject with the appropriate alert
and no network traffic when `canSave` fails (over-budget takes priority),
otherwise await `saveLineup` and alert success or the caught error
message (with the generic fallback for a falsy message). -/
def handleSave (user : Option User) (l : Lineup) (resp : SaveResponse) : SaveFlow :=
  if !canSave l then
    if l.remaining < 0 then
      { networkAttempted := false, alert := overBudgetAlert l.remaining }
    else
      { networkAttempted := false, alert := incompleteAlert }
  else
    let out := saveLineup user l resp
    match out.result with
    | .ok _ =>
      { networkAttempted := decide (SaveEvent.httpPost ∈ out.events)
        alert := { title := "Success", message := "Your lineup has been saved!" } }
    | .error m =>
      { networkAttempted := decide (SaveEvent.httpPost ∈ out.events)
        alert := { title := "Error", message := jsStrOr (some m) "Failed to save lineup" } }

/-- The budget-preview rejection alert shown by `handleSelectPlayer`. -/
def budgetExceededSelectAlert (playerCost availableCredits : Int) : AlertMsg :=
  { title := "Budget Exceeded"
    message :=
      "You don\x27t have enough credits to select this player.\n\nPlayer Cost: " ++
        toString playerCost ++ " credits\nAvailable Credits: " ++
        toString availableCredits ++
        " credits\n\nPlease select a cheaper player or remove other players to free up credits." }

/-- Result of the player-list screen's `handleSelectPlayer`: a budget
rejection (no assignment), an assignment through `setPlayerToPosition`,
or — without a position route parameter — the profile modal. -/
inductive SelectOutcome where
  | rejected (alert : AlertMsg)
  | assigned (newLineup : Lineup)
  | profileShown (p : Player)
  deriving DecidableEq, Repr

/-- Player-list screen, `handleSelectPlayer`: with a target position,
compute the hypothetical total `creditsUsed - cost(current) + cost(candidate)`;
reject with the budget alert when it exceeds 100, otherwise assign the
candidate to the position. Without a target position, open the profile. -/
def handleSelectPlayer (positionParam : Option Position) (l : Lineup) (player : Player) :
    SelectOutcome :=
  match positionParam with
  | none => .profileShown player
  | some pos =>
    let currentCost := slotCost (l.get pos)
    let newTotal := l.creditsUsed - currentCost + player.creditCost
    if newTotal > 100 then
      .rejected (budgetExceededSelectAlert player.creditCost (100 - (l.creditsUsed - currentCost)))
    else
      .assigned (setPlayerToPosition l pos (some player))

/-- Lineup states reachable through the context's full surface: the
initial state, assignments, loads (any response), and saves. -/
inductive ReachableState : Lineup → Prop
  | init : ReachableState initialLineup
  | assign (l : Lineup) (pos : Position) (pl : Option Player) :
      ReachableState l → ReachableState (setPlayerToPosition l pos pl)
  | load (l : Lineup) (u : Option User) (resp : LoadResponse) :
      ReachableState l → ReachableState (loadLineup u l resp).lineup
  | save (l : Lineup) (u : Option User) (resp : SaveResponse) :
      ReachableState l → ReachableState (saveLineup u l resp).lineup

/-- Lineup states reachable by `setPlayerToPosition` alone, starting
from the initial empty lineup. -/
inductive ReachableAssign : Lineup → Prop
  | init : ReachableAssign initialLineup
  | step (l : Lineup) (pos : Position) (pl : Option Player) :
      ReachableAssign l → ReachableAssign (setPlayerToPosition l pos pl)

/-- Lineup states reachable without `loadLineup`: the initial state,
assignments, and saves. -/
inductive ReachableAssignSave : Lineup → Prop
  | init : ReachableAssignSave initialLineup
  | assign (l : Lineup) (pos : Position) (pl : Option Player) :
      ReachableAssignSave l → ReachableAssignSave (setPlayerToPosition l pos pl)
  | save (l : Lineup) (u : Option User) (resp : SaveResponse) :
      ReachableAssignSave l → ReachableAssignSave (saveLineup u l resp).lineup

/-- A concrete roster player used in witnesses and counterexamples. -/
def mkPlayer (id : String) (cost : Int) : Player :=
  { id := id
    name := id
    jerseyNumber := 1
    position := "S"
    teamName := "LOVB Atlanta"
    creditCost := cost
    bio := ""
    imageBase64 := ""
    stats := { «matches» := 0, sets := 0, kills_per_set := 0, digs_per_set := 0,
               blocks_per_set := 0, aces_per_set := 0 } }

/-- A concrete signed-in user for witnesses and counterexamples. -/
def sampleUser : User := { token := "tok" }

/-- Updating one slot reads back as expected on every key. -/
theorem get_set (l : Lineup) (pos : Position) (pl : Option Player) (q : Position) :
    (l.set pos pl).get q = if q = pos then pl else l.get q := by
  cases pos <;> cases q <;> simp [Lineup.set, Lineup.get]

/-- `setPlayerToPosition` changes only the targeted slot among the six. -/
theorem get_setPlayerToPosition (l : Lineup) (pos : Position) (pl : Option Player)
    (q : Position) :
    (setPlayerToPosition l pos pl).get q = if q = pos then pl else l.get q := by
  cases pos <;> cases q <;>
    simp [setPlayerToPosition, calculateCredits, Lineup.set, Lineup.get]

/-- The fold inside `calculateCredits` computes the plain six-slot sum. -/
theorem calculateCredits_creditsUsed (l : Lineup) :
    (calculateCredits l).creditsUsed = sumCost l := by
  simp [calculateCredits, positionsList, Lineup.get, sumCost, List.foldl]

/-- The `remaining` component of `calculateCredits` is `100 -` the sum. -/
theorem calculateCredits_remaining (l : Lineup) :
    (calculateCredits l).remaining = 100 - sumCost l := by
  simp [calculateCredits, positionsList, Lineup.get, sumCost, List.foldl]

/-- Installing the derived fields does not touch the six slots. -/
theorem sumCost_setPlayerToPosition (l : Lineup) (pos : Position) (pl : Option Player) :
    sumCost (setPlayerToPosition l pos pl) = sumCost (l.set pos pl) := by
  cases pos <;> rfl

/-- `creditsUsed` after an assignment is the recomputed six-slot sum. -/
theorem setPlayerToPosition_creditsUsed (l : Lineup) (pos : Position) (pl : Option Player) :
    (setPlayerToPosition l pos pl).creditsUsed = sumCost (l.set pos pl) := by
  simpa [setPlayerToPosition] using calculateCredits_creditsUsed (l.set pos pl)

/-- `remaining` after an assignment is `100 -` the recomputed sum. -/
theorem setPlayerToPosition_remaining (l : Lineup) (pos : Position) (pl : Option Player) :
    (setPlayerToPosition l pos pl).remaining = 100 - sumCost (l.set pos pl) := by
  simpa [setPlayerToPosition] using calculateCredits_remaining (l.set pos pl)

/-- Every assignment-reachable state carries the recomputed aggregates. -/
theorem reachableAssign_sum (l : Lineup) (h : ReachableAssign l) :
    l.creditsUsed = sumCost l ∧ l.remaining = 100 - sumCost l := by
  induction h with
  | init => exact ⟨by decide, by decide⟩
  | step l pos pl _ _ =>
    rw [setPlayerToPosition_creditsUsed, setPlayerToPosition_remaining,
      sumCost_setPlayerToPosition]
    exact ⟨rfl, rfl⟩

/-- Clearing an occupied slot subtracts exactly the occupant's cost from
the six-slot sum. -/
theorem sumCost_set_none (l : Lineup) (pos : Position) (p : Player)
    (h : l.get pos = some p) :
    sumCost (l.set pos none) = sumCost l - p.creditCost := by
  cases pos <;> simp [Lineup.get] at h <;>
    simp [Lineup.set, sumCost, slotCost, h] <;> omega

/-- `saveLineup` never writes the lineup state. -/
theorem saveLineup_lineup (u : Option User) (l : Lineup) (resp : SaveResponse) :
    (saveLineup u l resp).lineup = l := by
  cases u <;> cases resp <;> rfl

/-- A payload whose stored aggregates are inconsistent with each other. -/
def c1BadPayload : LineupPayload :=
  { setter := none
    outsideHitter := none
    oppositeHitter := none
    middleBlocker := none
    libero := none
    defensiveSpecialist := none
    creditsUsed := some 1
    remaining := some 1 }

/-- The lineup state after hydrating from `c1BadPayload`. -/
def c1BadState : Lineup := (loadLineup (some sampleUser) initialLineup (.ok c1BadPayload)).lineup

/-- C1: the claimed invariant `creditsUsed + remaining == 100` does NOT
hold in every reachable state: a successful `loadLineup` stores the
server payload's aggregates verbatim (with falsy fallbacks) instead of
recomputing them, so the payload `creditsUsed = 1, remaining = 1`
produces a reachable state summing to 2. -/
theorem C1_invariant_counterexample :
    ReachableState c1BadState ∧ c1BadState.creditsUsed + c1BadState.remaining ≠ 100 :=
  ⟨ReachableState.load initialLineup (some sampleUser) (.ok c1BadPayload) ReachableState.init,
    by decide⟩

/-- C1 (amended): `creditsUsed + remaining == 100` holds in the initial
state, after every `setPlayerToPosition`, and after every `saveLineup`;
after a successful `loadLineup` the aggregates are stored from the
payload without recomputation, so the equation holds iff the payload's
falsy-defaulted values themselves sum to 100. -/
theorem C1_invariant_amended :
    (∀ l : Lineup, ReachableAssignSave l → l.creditsUsed + l.remaining = 100) ∧
    (∀ (u : User) (l : Lineup) (data : LineupPayload),
      ((loadLineup (some u) l (.ok data)).lineup.creditsUsed +
          (loadLineup (some u) l (.ok data)).lineup.remaining = 100 ↔
        jsIntOr data.creditsUsed 0 + jsIntOr data.remaining 100 = 100)) := by
  constructor
  · intro l h
    induction h with
    | init => decide
    | assign l pos pl _ _ =>
      rw [setPlayerToPosition_creditsUsed, setPlayerToPosition_remaining]
      omega
    | save l u resp _ ih =>
      rw [saveLineup_lineup]
      exact ih
  · intro u l data
    simp [loadLineup]

/-- C1 amended, witnessed at the initial state. -/
theorem C1_invariant_amended_witness :
    initialLineup.creditsUsed + initialLineup.remaining = 100 :=
  C1_invariant_amended.1 initialLineup ReachableAssignSave.init

/-- C2: after every sequence of `setPlayerToPosition` calls starting
from the initial empty lineup, `creditsUsed` equals the sum of
`creditCost` over the occupied slots (absent slots contributing zero)
and `remaining` equals `100 - creditsUsed`. -/
theorem C2_assign_credit_accounting (l : Lineup) (h : ReachableAssign l) :
    l.creditsUsed = sumCost l ∧ l.remaining = 100 - l.creditsUsed := by
  obtain ⟨h1, h2⟩ := reachableAssign_sum l h
  exact ⟨h1, by omega⟩

/-- A concrete assignment-reachable state for the C2 witness. -/
def c2State : Lineup := setPlayerToPosition initialLineup .setter (some (mkPlayer "w2" 30))

/-- C2, witnessed after one concrete assignment. -/
theorem C2_assign_credit_accounting_witness :
    c2State.creditsUsed = sumCost c2State ∧ c2State.remaining = 100 - c2State.creditsUsed :=
  C2_assign_credit_accounting c2State
    (ReachableAssign.step initialLineup .setter (some (mkPlayer "w2" 30)) ReachableAssign.init)

/-- C3: with a signed-in user, the team-builder's save flow issues the
network request iff all six slots are occupied and `remaining >= 0`;
otherwise no request is made and the alert identifies the failed
condition, over-budget taking priority when `remaining < 0`. -/
theorem C3_save_gate (u : User) (l : Lineup) (resp : SaveResponse) :
    ((handleSave (some u) l resp).networkAttempted = true ↔
      (allFilled l = true ∧ 0 ≤ l.remaining)) ∧
    (l.remaining < 0 →
      handleSave (some u) l resp =
        { networkAttempted := false, alert := overBudgetAlert l.remaining }) ∧
    (0 ≤ l.remaining → allFilled l = false →
      handleSave (some u) l resp =
        { networkAttempted := false, alert := incompleteAlert }) := by
  by_cases hf : allFilled l = true <;> by_cases hr : 0 ≤ l.remaining
  · have hnl : ¬ l.remaining < 0 := not_lt.mpr hr
    cases resp <;> simp [handleSave, canSave, saveLineup, hf, hr, hnl]
  · have hl : l.remaining < 0 := lt_of_not_ge hr
    cases resp <;> simp [handleSave, canSave, saveLineup, hf, hr, hl]
  · have hnl : ¬ l.remaining < 0 := not_lt.mpr hr
    cases resp <;> simp [handleSave, canSave, saveLineup, hf, hr, hnl]
  · have hl : l.remaining < 0 := lt_of_not_ge hr
    cases resp <;> simp [handleSave, canSave, saveLineup, hf, hr, hl]

/-- A concrete over-budget complete-slotless state for the C3 witness. -/
def c3OverBudget : Lineup := setPlayerToPosition initialLineup .setter (some (mkPlayer "big" 150))

/-- C3, witnessed on an over-budget lineup and on the empty lineup. -/
theorem C3_save_gate_witness :
    handleSave (some sampleUser) c3OverBudget .ok =
        { networkAttempted := false, alert := overBudgetAlert c3OverBudget.remaining } ∧
      handleSave (some sampleUser) initialLineup .ok =
        { networkAttempted := false, alert := incompleteAlert } :=
  ⟨(C3_save_gate sampleUser c3OverBudget .ok).2.1 (by decide),
    (C3_save_gate sampleUser initialLineup .ok).2.2 (by decide) (by decide)⟩

/-- C4: `setPlayerToPosition` is total and performs no budget check: it
replaces exactly the targeted slot, stores the aggregates freshly
recomputed from the six slots (so `remaining = 100 - creditsUsed`), and
can drive `remaining` negative; the update is a single atomic state
transition by construction (one pure function producing one state). -/
theorem C4_assign_unconditional (l : Lineup) (pos : Position) (pl : Option Player) :
    (∀ q : Position,
      (setPlayerToPosition l pos pl).get q = if q = pos then pl else l.get q) ∧
    (setPlayerToPosition l pos pl).creditsUsed = sumCost (setPlayerToPosition l pos pl) ∧
    (setPlayerToPosition l pos pl).remaining =
      100 - (setPlayerToPosition l pos pl).creditsUsed ∧
    (setPlayerToPosition initialLineup .setter (some (mkPlayer "expensive" 150))).remaining < 0 := by
  refine ⟨get_setPlayerToPosition l pos pl, ?_, ?_, by decide⟩
  · rw [setPlayerToPosition_creditsUsed, sumCost_setPlayerToPosition]
  · rw [setPlayerToPosition_remaining, setPlayerToPosition_creditsUsed]

/-- A payload whose stored `creditsUsed` disagrees with its slots. -/
def c5Payload : LineupPayload :=
  { setter := none
    outsideHitter := none
    oppositeHitter := none
    middleBlocker := none
    libero := none
    defensiveSpecialist := none
    creditsUsed := some 7
    remaining := some 93 }

/-- C5: a successful `loadLineup` takes the slots and both aggregates
verbatim from the payload, with falsy fallback (`|| 0`, `|| 100`); a
payload `remaining` of 0 therefore hydrates to 100, and the stored
`creditsUsed` is not recomputed from the loaded slots. -/
theorem C5_load_stores_payload_verbatim (u : User) (l : Lineup) (data : LineupPayload) :
    (loadLineup (some u) l (.ok data)).lineup.setter = data.setter ∧
    (loadLineup (some u) l (.ok data)).lineup.outsideHitter = data.outsideHitter ∧
    (loadLineup (some u) l (.ok data)).lineup.oppositeHitter = data.oppositeHitter ∧
    (loadLineup (some u) l (.ok data)).lineup.middleBlocker = data.middleBlocker ∧
    (loadLineup (some u) l (.ok data)).lineup.libero = data.libero ∧
    (loadLineup (some u) l (.ok data)).lineup.defensiveSpecialist = data.defensiveSpecialist ∧
    (loadLineup (some u) l (.ok data)).lineup.creditsUsed = jsIntOr data.creditsUsed 0 ∧
    (loadLineup (some u) l (.ok data)).lineup.remaining = jsIntOr data.remaining 100 ∧
    (loadLineup (some u) l (.ok { data with remaining := some 0 })).lineup.remaining = 100 ∧
    (loadLineup (some sampleUser) initialLineup (.ok c5Payload)).lineup.creditsUsed ≠
      sumCost (loadLineup (some sampleUser) initialLineup (.ok c5Payload)).lineup := by
  refine ⟨rfl, rfl, rfl, rfl, rfl, rfl, rfl, rfl, ?_, by decide⟩
  simp [loadLineup, jsIntOr]

/-- C6: with a target position, the player-list selection handler
computes `creditsUsed - cost(current occupant) + cost(candidate)`;
above 100 it rejects with the budget alert and performs no assignment,
otherwise it assigns the candidate via `setPlayerToPosition`. -/
theorem C6_select_budget_preview (pos : Position) (l : Lineup) (p : Player) :
    (l.creditsUsed - slotCost (l.get pos) + p.creditCost > 100 →
      handleSelectPlayer (some pos) l p =
        .rejected (budgetExceededSelectAlert p.creditCost
          (100 - (l.creditsUsed - slotCost (l.get pos))))) ∧
    (l.creditsUsed - slotCost (l.get pos) + p.creditCost ≤ 100 →
      handleSelectPlayer (some pos) l p = .assigned (setPlayerToPosition l pos (some p))) := by
  constructor
  · intro h
    simp only [handleSelectPlayer]
    rw [if_pos h]
  · intro h
    simp only [handleSelectPlayer]
    rw [if_neg (not_lt.mpr h)]

/-- C6, witnessed on a rejected and an accepted concrete selection. -/
theorem C6_select_budget_preview_witness :
    handleSelectPlayer (some .setter) initialLineup (mkPlayer "pricey" 150) =
        .rejected (budgetExceededSelectAlert (mkPlayer "pricey" 150).creditCost
          (100 - (initialLineup.creditsUsed - slotCost (initialLineup.get .setter)))) ∧
      handleSelectPlayer (some .setter) initialLineup (mkPlayer "cheap" 50) =
        .assigned (setPlayerToPosition initialLineup .setter (some (mkPlayer "cheap" 50))) :=
  ⟨(C6_select_budget_preview .setter initialLineup (mkPlayer "pricey" 150)).1 (by decide),
    (C6_select_budget_preview .setter initialLineup (mkPlayer "cheap" 50)).2 (by decide)⟩

/-- C7: in any assignment-reachable state, clearing an occupied slot
lowers `creditsUsed` by exactly the departing player's `creditCost` and
raises `remaining` by the same amount. -/
theorem C7_clear_slot_refund (l : Lineup) (pos : Position) (p : Player)
    (hreach : ReachableAssign l) (hocc : l.get pos = some p) :
    (setPlayerToPosition l pos none).creditsUsed = l.creditsUsed - p.creditCost ∧
    (setPlayerToPosition l pos none).remaining = l.remaining + p.creditCost := by
  obtain ⟨h1, h2⟩ := reachableAssign_sum l hreach
  have h3 := sumCost_set_none l pos p hocc
  rw [setPlayerToPosition_creditsUsed, setPlayerToPosition_remaining, h3, h1, h2]
  constructor <;> omega

/-- The occupying player of the C7 witness state. -/
def c7Player : Player := mkPlayer "w7" 30

/-- The C7 witness state: the setter slot occupied by `c7Player`. -/
def c7State : Lineup := setPlayerToPosition initialLineup .setter (some c7Player)

/-- C7, witnessed by clearing a concretely occupied setter slot. -/
theorem C7_clear_slot_refund_witness :
    ReachableAssign c7State ∧ c7State.get .setter = some c7Player ∧
      (setPlayerToPosition c7State .setter none).creditsUsed =
        c7State.creditsUsed - c7Player.creditCost ∧
      (setPlayerToPosition c7State .setter none).remaining =
        c7State.remaining + c7Player.creditCost := by
  have hreach : ReachableAssign c7State :=
    ReachableAssign.step initialLineup .setter (some c7Player) ReachableAssign.init
  have hocc : c7State.get .setter = some c7Player := rfl
  exact ⟨hreach, hocc, (C7_clear_slot_refund c7State .setter c7Player hreach hocc).1,
    (C7_clear_slot_refund c7State .setter c7Player hreach hocc).2⟩

/-- C8: a failed `loadLineup` — thrown network error or non-ok response —
leaves the whole lineup state unchanged and surfaces nothing to the
user; the network error is only written to the console log. -/
theorem C8_load_failure_silent (u : User) (l : Lineup) (msg : String) :
    (loadLineup (some u) l (.networkError msg)).lineup = l ∧
    (loadLineup (some u) l (.networkError msg)).surfacedError = none ∧
    (loadLineup (some u) l (.networkError msg)).loggedErrors =
      ["Failed to load lineup: " ++ msg] ∧
    (loadLineup (some u) l .notOk).lineup = l ∧
    (loadLineup (some u) l .notOk).surfacedError = none :=
  ⟨rfl, rfl, rfl, rfl, rfl⟩

/-- C9: with a signed-in user, `saveLineup` sets `saving` to true before
issuing the request and resets it to false as the final step on every
completion path, and its promise result is success on ok, the payload's
`detail` (or the generic fallback) on a non-ok response, and the thrown
message on a network error. -/
theorem C9_saving_flag_discipline (u : User) (l : Lineup) (resp : SaveResponse) :
    (saveLineup (some u) l resp).events =
      [SaveEvent.setSaving true, SaveEvent.httpPost, SaveEvent.setSaving false] ∧
    (saveLineup (some u) l resp).result =
      (match resp with
        | .ok => Except.ok ()
        | .notOk detail => Except.error (jsStrOr detail "Failed to save lineup")
        | .networkError msg => Except.error msg) := by
  cases resp <;> exact ⟨rfl, rfl⟩

/-- The duplicated player of the C10 scenario. -/
def c10Player : Player := mkPlayer "dup" 30

/-- The C10 scenario: the same player assigned to setter and libero. -/
def c10State : Lineup :=
  setPlayerToPosition (setPlayerToPosition initialLineup .setter (some c10Player))
    .libero (some c10Player)

/-- C10: no deduplication — assigning the same player to two different
positions leaves both slots occupied by that player and counts the
player's `creditCost` twice in `creditsUsed`. -/
theorem C10_no_deduplication :
    c10State.setter = some c10Player ∧ c10State.libero = some c10Player ∧
      c10State.creditsUsed = 2 * c10Player.creditCost :=
  ⟨rfl, rfl, by decide⟩

end LOVB
